import Mathlib

/-!
Shallow embedding of `ollama_benchmark/judge/tester.py`: the judge
`Tester` class (conversation driver, transcript replayer, judge
pipeline, result aggregation) together with the fragments of the Python
runtime the module leans on (`json.loads`, `str.format`, tuple
display). External collaborators (the inference client and the question
repository) are modelled as an explicit environment of pure functions,
and the calls the code makes to the client are recorded as an event
trace so that temporal claims about them can be stated.
-/

namespace OllamaBenchmark

/-- A chat message: the `role`/`content` dict built by the source, with
the optional `images` key modelled as a list (absent key = empty list). -/
structure Message where
  role : String
  content : String
  images : List String := []
deriving Repr, DecidableEq

/-- A JSON value as produced by Python `json.loads`. Numbers are
modelled as integers only: no judged content or transcript in scope
uses fractional or exponent forms, and floating point is outside the
model. Object member lists keep source order; duplicate keys resolve to
the last occurrence, as in Python. -/
inductive Json where
  | null : Json
  | bool (b : Bool) : Json
  | num (n : Int) : Json
  | str (s : String) : Json
  | arr (elements : List Json) : Json
  | obj (members : List (String × Json)) : Json

/-- Double-quote character. -/
def quoteChar : Char := Char.ofNat 34

/-- Backslash character. -/
def backslashChar : Char := Char.ofNat 92

/-- Left curly brace character. -/
def lbraceChar : Char := Char.ofNat 123

/-- Right curly brace character. -/
def rbraceChar : Char := Char.ofNat 125

/-- JSON insignificant whitespace. -/
def jsonWs (c : Char) : Bool :=
  c == ' ' || c == '\n' || c == '\t' || c == '\r'

/-- Drop leading JSON whitespace. -/
def skipWs (cs : List Char) : List Char := cs.dropWhile jsonWs

/-- Parse the body of a JSON string after the opening quote, returning
the decoded characters and the remainder after the closing quote.
Handles the single-character escapes; `\uXXXX` escapes are outside the
modelled subset. -/
def parseStrBody : Nat → List Char → Except String (List Char × List Char)
  | 0, _ => .error "out of fuel"
  | _ + 1, [] => .error "Unterminated string"
  | fuel + 1, c :: rest =>
    if c == quoteChar then .ok ([], rest)
    else if c == backslashChar then
      match rest with
      | [] => .error "Unterminated string"
      | e :: rest2 =>
        let decoded : Option Char :=
          if e == quoteChar then some quoteChar
          else if e == backslashChar then some backslashChar
          else if e == '/' then some '/'
          else if e == 'n' then some '\n'
          else if e == 't' then some '\t'
          else if e == 'r' then some '\r'
          else if e == 'b' then some (Char.ofNat 8)
          else if e == 'f' then some (Char.ofNat 12)
          else none
        match decoded with
        | some d => (parseStrBody fuel rest2).map (fun p => (d :: p.1, p.2))
        | none => .error "Invalid escape"
    else (parseStrBody fuel rest).map (fun p => (c :: p.1, p.2))

/-- Value of a digit string. -/
def digitsToNat (ds : List Char) : Nat :=
  ds.foldl (fun acc d => 10 * acc + (d.toNat - 48)) 0

/-- Parse a JSON integer (optional minus sign, digits). Fractional and
exponent forms are outside the modelled subset. -/
def parseNumber (cs : List Char) : Except String (Json × List Char) :=
  let (neg, cs1) :=
    match cs with
    | c :: rest => if c == '-' then (true, rest) else (false, cs)
    | [] => (false, cs)
  let ds := cs1.takeWhile Char.isDigit
  let rest := cs1.drop ds.length
  if ds.isEmpty then .error "Expecting value"
  else
    let val : Int := (digitsToNat ds : Int)
    let val := if neg then -val else val
    match rest with
    | c :: _ =>
      if c == '.' || c == 'e' || c == 'E' then
        .error "number form outside modelled subset"
      else .ok (Json.num val, rest)
    | [] => .ok (Json.num val, rest)

/-- Drop a literal character sequence from the front of the input, or
fail. -/
def stripChars : List Char → List Char → Option (List Char)
  | [], cs => some cs
  | _ :: _, [] => none
  | a :: ps, b :: cs => if a == b then stripChars ps cs else none

mutual

/-- Parse one JSON value (recursive descent, fuel-bounded; the fuel
chosen by `json_loads` always suffices for its input). -/
def parseValue : Nat → List Char → Except String (Json × List Char)
  | 0, _ => .error "out of fuel"
  | fuel + 1, cs =>
    match skipWs cs with
    | [] => .error "Expecting value"
    | c :: rest =>
      if c == quoteChar then
        (parseStrBody (fuel + 1) rest).map (fun p => (Json.str (String.mk p.1), p.2))
      else if c == lbraceChar then
        match skipWs rest with
        | d :: rest2 =>
          if d == rbraceChar then .ok (Json.obj [], rest2)
          else
            (parseMembers fuel rest).map (fun p => (Json.obj p.1, p.2))
        | [] => .error "Expecting property name"
      else if c == '[' then
        match skipWs rest with
        | d :: rest2 =>
          if d == ']' then .ok (Json.arr [], rest2)
          else
            (parseElements fuel rest).map (fun p => (Json.arr p.1, p.2))
        | [] => .error "Expecting value"
      else
        match stripChars ['t', 'r', 'u', 'e'] (c :: rest) with
        | some rest2 => .ok (Json.bool true, rest2)
        | none =>
          match stripChars ['f', 'a', 'l', 's', 'e'] (c :: rest) with
          | some rest2 => .ok (Json.bool false, rest2)
          | none =>
            match stripChars ['n', 'u', 'l', 'l'] (c :: rest) with
            | some rest2 => .ok (Json.null, rest2)
            | none => parseNumber (c :: rest)

/-- Parse the members of a JSON object after the opening brace
(non-empty case), including the closing brace. -/
def parseMembers : Nat → List Char → Except String (List (String × Json) × List Char)
  | 0, _ => .error "out of fuel"
  | fuel + 1, cs =>
    match skipWs cs with
    | [] => .error "Expecting property name"
    | c :: rest =>
      if c == quoteChar then
        match parseStrBody (fuel + 1) rest with
        | .error e => .error e
        | .ok (key, rest2) =>
          match skipWs rest2 with
          | d :: rest3 =>
            if d == ':' then
              match parseValue fuel rest3 with
              | .error e => .error e
              | .ok (v, rest4) =>
                match skipWs rest4 with
                | d2 :: rest5 =>
                  if d2 == ',' then
                    (parseMembers fuel rest5).map
                      (fun p => ((String.mk key, v) :: p.1, p.2))
                  else if d2 == rbraceChar then
                    .ok ([(String.mk key, v)], rest5)
                  else .error "Expecting delimiter"
                | [] => .error "Expecting delimiter"
            else .error "Expecting colon delimiter"
          | [] => .error "Expecting colon delimiter"
      else .error "Expecting property name"

/-- Parse the elements of a JSON array after the opening bracket
(non-empty case), including the closing bracket. -/
def parseElements : Nat → List Char → Except String (List Json × List Char)
  | 0, _ => .error "out of fuel"
  | fuel + 1, cs =>
    match parseValue fuel cs with
    | .error e => .error e
    | .ok (v, rest) =>
      match skipWs rest with
      | d :: rest2 =>
        if d == ',' then
          (parseElements fuel rest2).map (fun p => (v :: p.1, p.2))
        else if d == ']' then .ok ([v], rest2)
        else .error "Expecting delimiter"
      | [] => .error "Expecting delimiter"

end

/-- Python `json.loads`: parse a complete JSON document, demanding that
only whitespace follows the value. -/
def json_loads (s : String) : Except String Json :=
  match parseValue (2 * s.length + 2) s.toList with
  | .error e => .error e
  | .ok (v, rest) =>
    if (skipWs rest).isEmpty then .ok v else .error "Extra data"

/-- Python truthiness of a JSON value (empty containers, zero, empty
string, `null` and `false` are falsy). -/
def Json.truthy : Json → Bool
  | .null => false
  | .bool b => b
  | .num n => n != 0
  | .str s => !s.isEmpty
  | .arr xs => !xs.isEmpty
  | .obj kvs => !kvs.isEmpty

/-- Last-occurrence member lookup on a JSON object member list,
matching the dict produced by Python JSON decoding. -/
def lookupMember (kvs : List (String × Json)) (k : String) : Option Json :=
  (kvs.reverse.find? (fun p => p.1 == k)).map (fun p => p.2)

/-- Errors raised by the modelled Python code. `configurationError` is
the repository's `errors.ConfigurationError` (its defining module is
outside `src/`; modelled from the spec: a configuration-time failure
type). The others are Python built-ins. -/
inductive PyError where
  | attributeError (msg : String)
  | configurationError (msg : String)
  | indexError (msg : String)
  | keyError (msg : String)
  | typeError (msg : String)
  | valueError (msg : String)
  | jsonDecodeError (msg : String)
deriving Repr, DecidableEq

/-- Python subscript `j[i]` for an integer index, as used on the loaded
transcripts value (array case; other shapes are outside the modelled
scope of the loaded document). -/
def jsonIndex (j : Json) (i : Nat) : Except PyError Json :=
  match j with
  | .arr xs =>
    match xs[i]? with
    | some x => .ok x
    | none => .error (.indexError "list index out of range")
  | _ => .error (.typeError "subscript outside modelled scope")

/-- Read a string-valued member of a JSON object (the dynamic
`msg[key]` accesses of the source, modelled eagerly). -/
def jsonGetStr (j : Json) (k : String) : Except PyError String :=
  match j with
  | .obj kvs =>
    match lookupMember kvs k with
    | some (.str s) => .ok s
    | some _ => .error (.typeError "str expected")
    | none => .error (.keyError k)
  | _ => .error (.typeError "object expected")

/-- Decode one loaded message dict into the `Message` shape the code
accesses (`role`, `content`, optional `images`). Python performs these
accesses lazily at use sites; the model decodes eagerly at load. -/
def jsonToMessage (j : Json) : Except PyError Message := do
  let role ← jsonGetStr j "role"
  let content ← jsonGetStr j "content"
  let images ←
    match j with
    | .obj kvs =>
      match lookupMember kvs "images" with
      | some (.arr xs) =>
        xs.mapM (fun x =>
          match x with
          | .str s => Except.ok s
          | _ => Except.error (PyError.typeError "str expected"))
      | some _ => .error (.typeError "list expected")
      | none => pure []
    | _ => .error (.typeError "object expected")
  pure { role := role, content := content, images := images }

/-- Decode one loaded transcript (a JSON array of message dicts). -/
def jsonToTranscript (j : Json) : Except PyError (List Message) :=
  match j with
  | .arr xs => xs.mapM jsonToMessage
  | _ => .error (.typeError "list expected")

/-- Python `str.format` replacement fields recognised by the judge
prompt template: literal characters and the three keyword fields the
source passes (`question`, `answer`, `options`). -/
inductive Seg where
  | lit (c : Char) : Seg
  | question : Seg
  | answer : Seg
  | options : Seg
deriving Repr, DecidableEq

/-- Scan a format template into segments, as Python `str.format` does
before substituting: doubled braces are literals, a brace-delimited
name must be one of the keyword arguments supplied at the call site
(else `KeyError`), an unterminated field is a `ValueError`. Format
specs and conversions (`:`/`!`) are outside the modelled subset. -/
def parseTemplateAux : Nat → List Char → Except PyError (List Seg)
  | 0, _ => .error (.valueError "out of fuel")
  | _ + 1, [] => .ok []
  | fuel + 1, c :: rest =>
    if c == lbraceChar then
      match rest with
      | [] => .error (.valueError "Single brace encountered in format string")
      | c2 :: rest2 =>
        if c2 == lbraceChar then
          (parseTemplateAux fuel rest2).map (fun segs => Seg.lit lbraceChar :: segs)
        else
          let name := (c2 :: rest2).takeWhile (fun d => !(d == rbraceChar))
          match (c2 :: rest2).drop name.length with
          | [] => .error (.valueError "expected closing brace before end of string")
          | _ :: rest3 =>
            let nm := String.mk name
            if nm == "question" then
              (parseTemplateAux fuel rest3).map (fun segs => Seg.question :: segs)
            else if nm == "answer" then
              (parseTemplateAux fuel rest3).map (fun segs => Seg.answer :: segs)
            else if nm == "options" then
              (parseTemplateAux fuel rest3).map (fun segs => Seg.options :: segs)
            else .error (.keyError nm)
    else if c == rbraceChar then
      match rest with
      | [] => .error (.valueError "Single brace encountered in format string")
      | c2 :: rest2 =>
        if c2 == rbraceChar then
          (parseTemplateAux fuel rest2).map (fun segs => Seg.lit rbraceChar :: segs)
        else .error (.valueError "Single brace encountered in format string")
    else (parseTemplateAux fuel rest).map (fun segs => Seg.lit c :: segs)

/-- Scan a whole template. -/
def parseTemplate (template : String) : Except PyError (List Seg) :=
  parseTemplateAux (template.length + 1) template.toList

/-- Substitute the three keyword values into a scanned template.
Substituted values are not re-scanned, as in Python. -/
def renderSegs (q a o : String) : List Seg → String
  | [] => ""
  | .lit c :: rest => c.toString ++ renderSegs q a o rest
  | .question :: rest => q ++ renderSegs q a o rest
  | .answer :: rest => a ++ renderSegs q a o rest
  | .options :: rest => o ++ renderSegs q a o rest

/-- Python `template.format(question=q, answer=a, options=o)`. -/
def str_format (template q a o : String) : Except PyError String :=
  (parseTemplate template).map (renderSegs q a o)

/-- Single-quote character, used by Python string display. -/
def squote : String := (Char.ofNat 39).toString

/-- Python `repr` of an optional-string option bag (quoting of special
characters inside the string is outside the modelled subset). -/
def pyRepr : Option String → String
  | none => "None"
  | some s => squote ++ s ++ squote

/-- Python `str` of a tuple of option bags; a one-element tuple
displays with a trailing comma, e.g. `(None,)`. -/
def pyStrTuple (xs : List (Option String)) : String :=
  match xs with
  | [x] => "(" ++ pyRepr x ++ ",)"
  | _ => "(" ++ String.intercalate ", " (xs.map pyRepr) ++ ")"

/-- A question as resolved by the external question repository:
`turns` is the ordered prompt list, `has_image_urls` models the
presence of the `image_urls` key. -/
structure Question where
  turns : List String
  has_image_urls : Bool := false
deriving Repr, DecidableEq

/-- The client's chat response; the source only ever reads
`response[&quot;message&quot;][&quot;content&quot;]`. -/
structure ChatResponse where
  message : Message
deriving Repr, DecidableEq

/-- The external collaborators (inference client and question
repository), modelled as pure response functions. `chat` takes the
model identifier, the message list and the options bag. -/
structure Env where
  get_question : Nat → Question
  get_question_b64_images : Nat → List String
  chat : String → List Message → String → ChatResponse

/-- One observable call made to the external inference client. -/
inductive Event where
  | chat (model : String) (messages : List Message) (options : String) : Event
  | unload (model : String) : Event
deriving Repr, DecidableEq

/-- Number of unload calls in a trace. -/
def countUnload (evs : List Event) : Nat :=
  (evs.filter (fun e => match e with | .unload _ => true | _ => false)).length

/-- Default judge system prompt (`JUDGE_SYSTEM_PROMPT`); the rubric
text, transliterated (assistant-side quotes dropped, braces escaped);
no property in scope depends on this exact text. -/
def JUDGE_SYSTEM_PROMPT : String :=
  "\nYou will be given a user_question and system_answer couple.\n"
  ++ "Your task is to provide a total rating scoring how well the system_answer "
  ++ "answers the user concerns expressed in the user_question.\n"
  ++ "Give your answer on a scale of 1 to 100.\n\n"
  ++ "Provide your feedback as JSON as follows with just the result, no other text:\n\n"
  ++ "\x7b\n    \"evaluation\": \"(your rationale for the rating, as a text)\",\n"
  ++ "    \"total_rating\": \"(your rating, as a number between 1 and 100)\",\n"
  ++ "    \"feedback\": \"(How you think it could be improved)\",\n\x7d\n"

/-- Default judge prompt template (`JUDGE_PROMPT`). -/
def JUDGE_PROMPT : String :=
  "\nNow here are the question and answer.\n\nQuestion: \x7bquestion\x7d\nAnswer: \x7banswer\x7d\n"

/-- The judge `Tester`'s attribute state after `__init__`. `model`,
`ollama_options` and the client come from `BaseTester` (outside
`src/`; modelled from the spec: the subject model identifier and the
general inference option bag are configuration carried on the tester).
Option bags are opaque strings; file-valued arguments carry their text
content; `ollama_judge_options` is a Python tuple, modelled as a list. -/
structure Tester where
  model : String
  ollama_options : String
  judge_model : String
  system_prompt : Option String
  ollama_judge_options : List (Option String)
  judge_system_prompt : String
  judge_prompt : String
  question : Option Nat
  max_turns : Nat
  load_messages_file : Option String
deriving Repr, DecidableEq

/-- `Tester.__init__`: note the trailing comma in the source line
`self.ollama_judge_options = ollama_judge_options,` makes the stored
attribute the one-element tuple `(ollama_judge_options,)`, and the
`or`-defaulting of the prompt texts treats an empty string like an
absent argument. -/
def Tester.init (model : String) (ollama_options : String) (judge_model : String)
    (system_prompt : Option String := none)
    (judge_system_prompt : Option String := none)
    (judge_prompt : Option String := none)
    (ollama_judge_options : Option String := none)
    (question : Option Nat := none)
    (max_turns : Nat := 1)
    (load_messages : Option String := none) : Tester where
  model := model
  ollama_options := ollama_options
  judge_model := judge_model
  system_prompt := system_prompt
  ollama_judge_options := [ollama_judge_options]
  judge_system_prompt :=
    match judge_system_prompt with
    | some s => if s.isEmpty then JUDGE_SYSTEM_PROMPT else s
    | none => JUDGE_SYSTEM_PROMPT
  judge_prompt :=
    match judge_prompt with
    | some s => if s.isEmpty then JUDGE_PROMPT else s
    | none => JUDGE_PROMPT
  question := question
  max_turns := max_turns
  load_messages_file := load_messages

/-- The `load_messages` property: `json.load` of the configured file.
With no file configured this is `json.load(None)`, which raises
`AttributeError` (only `JSONDecodeError` is caught and converted to
`ConfigurationError`). The source caches the value; caching is
unobservable in the pure model. -/
def Tester.load_messages (t : Tester) : Except PyError Json :=
  match t.load_messages_file with
  | none => .error (.attributeError "NoneType object has no attribute read")
  | some content =>
    match json_loads content with
    | .ok v => .ok v
    | .error e => .error (.configurationError ("Invalid JSON messages file: " ++ e))

/-- Contiguous-subsequence test on character lists. -/
def listContains (needle : List Char) : List Char → Bool
  | [] => needle.isEmpty
  | c :: rest => needle.isPrefixOf (c :: rest) || listContains needle rest

/-- Substring test (Python `in` on strings). -/
def strContains (hay needle : String) : Bool :=
  listContains needle.toList hay.toList

/-- `Tester.check_config`: the template must contain both markers
(checked in the source's loop order, `question` first); then, if a
messages file is configured (a file handle is always truthy), the
loaded value must be truthy. No call to the inference client is made:
the function does not touch the environment. -/
def Tester.check_config (t : Tester) : Except PyError Unit :=
  if strContains t.judge_prompt "\x7bquestion\x7d" = false then
    .error (.configurationError "The judge prompt must contains \x7bquestion\x7d")
  else if strContains t.judge_prompt "\x7banswer\x7d" = false then
    .error (.configurationError "The judge prompt must contains \x7banswer\x7d")
  else
    match t.load_messages_file with
    | none => .ok ()
    | some _ =>
      match t.load_messages with
      | .error e => .error e
      | .ok v => if v.truthy then .ok () else .error (.configurationError "No loaded messages")

/-- The turn loop of `Tester.run_turns`: for each prompt, append the
user message (with the question's images when it declares image urls),
call the subject model on the transcript so far, and append the
returned assistant content. Returns the trace of chat calls and the
final transcript. -/
def Tester.drive_turns (t : Tester) (env : Env) (question_id : Nat) (has_images : Bool) :
    List Message → List String → List Event × List Message
  | messages, [] => ([], messages)
  | messages, prompt :: rest =>
    let message : Message :=
      { role := "user", content := prompt,
        images := if has_images then env.get_question_b64_images question_id else [] }
    let messages1 := messages ++ [message]
    let response := env.chat t.model messages1 t.ollama_options
    let messages2 := messages1 ++ [{ role := "assistant", content := response.message.content }]
    (Event.chat t.model messages1 t.ollama_options
       :: (t.drive_turns env question_id has_images messages2 rest).1,
     (t.drive_turns env question_id has_images messages2 rest).2)

/-- `Tester.run_turns`: resolve the question, optionally seed the
configured system prompt, then drive at most `max_turns` turns. -/
def Tester.run_turns (t : Tester) (env : Env) (question_id : Nat) :
    List Event × List Message :=
  let question := env.get_question question_id
  let init : List Message :=
    match t.system_prompt with
    | some sp => [{ role := "system", content := sp }]
    | none => []
  t.drive_turns env question_id question.has_image_urls init (question.turns.take t.max_turns)

/-- Rendering of the judge prompt inside `Tester.evaluate_turns`:
`self.judge_prompt.format(question=..., answer=..., options=self.ollama_judge_options)`;
the `options` keyword receives the display of the stored tuple. -/
def Tester.renderJudgePrompt (t : Tester) (question answer : String) :
    Except PyError String :=
  str_format t.judge_prompt question answer (pyStrTuple t.ollama_judge_options)

/-- The two-message judge conversation built per pair inside
`Tester.evaluate_turns`. -/
def Tester.judgeMessages (t : Tester) (judge_prompt : String) : List Message :=
  [{ role := "system", content := t.judge_system_prompt },
   { role := "user", content := judge_prompt }]

/-- The `while messages:` pairing loop of `Tester.evaluate_turns`: pop
a prompt and an answer, render the judge prompt, call the judge model
with the general inference options, collect the response. Popping the
answer from an exhausted working copy is the source's unhandled
`IndexError`. -/
def Tester.judge_loop (t : Tester) (env : Env) :
    List Message → List Event × Except PyError (List ChatResponse)
  | [] => ([], .ok [])
  | [_] => ([], .error (.indexError "pop from empty list"))
  | p :: a :: rest =>
    match t.renderJudgePrompt p.content a.content with
    | .error e => ([], .error e)
    | .ok jp =>
      let jmsgs := t.judgeMessages jp
      let response := env.chat t.judge_model jmsgs t.ollama_options
      (Event.chat t.judge_model jmsgs t.ollama_options :: (t.judge_loop env rest).1,
       Except.map (fun js => response :: js) (t.judge_loop env rest).2)

/-- Lines 129-131 of the source: on the working copy, pop and discard a
leading message whose role is `system`. -/
def stripLeadingSystem : List Message → List Message
  | [] => []
  | m :: rest => if m.role = "system" then rest else m :: rest

/-- `Tester.evaluate_turns`: work on a copy of the transcript (the
model is pure, so the argument is never mutated), discard a leading
system message, then run the pairing loop. -/
def Tester.evaluate_turns (t : Tester) (env : Env) (messages : List Message) :
    List Event × Except PyError (List ChatResponse) :=
  t.judge_loop env (stripLeadingSystem messages)

/-- `Tester._parse_judgement`: plain `json.loads` of the judge's
textual content; no validation of the decoded value's shape or keys. -/
def parse_judgement (judgement : String) : Except PyError Json :=
  match json_loads judgement with
  | .ok v => .ok v
  | .error e => .error (.jsonDecodeError e)

/-- The `judgements_content` comprehension of `Tester.run`: parse each
raw response's content; the first parse failure propagates. -/
def judgements_content (judgements : List ChatResponse) : Except PyError (List Json) :=
  judgements.mapM (fun j => parse_judgement j.message.content)

/-- The result object assembled by `Tester.run`. The two wall-clock
durations (and their sum) are real-time measurements outside the
model. -/
structure Result where
  messages : List Message
  judgements : List Json

/-- Judgement phase of `Tester.run`: evaluate the transcript, parse
every raw response, assemble the result; `pre` is the trace of client
calls already made. -/
def Tester.run_judge_phase (t : Tester) (env : Env) (pre : List Event)
    (messages : List Message) : List Event × Except PyError Result :=
  (pre ++ (t.evaluate_turns env messages).1,
   match (t.evaluate_turns env messages).2 with
   | .error e => .error e
   | .ok judgements =>
     match judgements_content judgements with
     | .error e => .error e
     | .ok contents => .ok { messages := messages, judgements := contents })

/-- `Tester.run`: evaluate the `load_messages` property (this raises
when no file is configured); when it is truthy take the transcript at
`question_id`, otherwise drive live turns and, when the subject and
judge models coincide, unload the subject model before judging. -/
def Tester.run (t : Tester) (env : Env) (question_id : Nat) :
    List Event × Except PyError Result :=
  match t.load_messages with
  | .error e => ([], .error e)
  | .ok lm =>
    if lm.truthy then
      match (jsonIndex lm question_id).bind jsonToTranscript with
      | .error e => ([], .error e)
      | .ok messages => t.run_judge_phase env [] messages
    else
      let evs := (t.run_turns env question_id).1
        ++ (if t.model = t.judge_model then [Event.unload t.model] else [])
      t.run_judge_phase env evs (t.run_turns env question_id).2

/-! ### Concrete fixtures used by witnesses and counterexamples -/

/-- Environment whose judge responses are the well-formed rating
document. -/
def ratingContent : String :=
  "\x7b\"evaluation\":\"ok\",\"total_rating\":\"70\",\"feedback\":\"none\"\x7d"

/-- Constant-response chat function. -/
def constChat (content : String) : String → List Message → String → ChatResponse :=
  fun _ _ _ => { message := { role := "assistant", content := content } }

def envA : Env where
  get_question := fun _ => { turns := ["What?"], has_image_urls := false }
  get_question_b64_images := fun _ => []
  chat := constChat ratingContent

/-- Environment whose judge responses are the empty JSON object. -/
def envB : Env :=
  { envA with chat := constChat "\x7b\x7d" }

/-- Environment whose judge responses are not JSON at all. -/
def envC : Env :=
  { envA with chat := constChat "not json" }

/-- The spec's example transcripts document. -/
def transcriptFile : String :=
  "[[\x7b\"role\":\"user\",\"content\":\"hi\"\x7d,\x7b\"role\":\"assistant\",\"content\":\"hello\"\x7d]]"

/-- The spec's example transcript, decoded. -/
def transcriptHi : List Message :=
  [{ role := "user", content := "hi" }, { role := "assistant", content := "hello" }]

/-- A tester configured with the example transcripts document. -/
def tLoaded : Tester :=
  Tester.init "m" "opts" "judge" none none none none none 1 (some transcriptFile)

/-- A tester with no transcript source configured. -/
def tLive : Tester :=
  Tester.init "m" "opts" "judge" none none none none none 1 none

/-- A tester with a short custom template and judge system prompt. -/
def tSmall : Tester :=
  Tester.init "m" "opts" "judge" none (some "JSP")
    (some "\x7bquestion\x7d/\x7banswer\x7d") none none 1 none

/-- A tester whose template lacks the answer marker. -/
def tNoAnswer : Tester :=
  Tester.init "m" "opts" "judge" none none (some "only \x7bquestion\x7d") none none 1 none

/-- A tester replaying an empty transcripts document, subject model
equal to judge model. -/
def tEmptySame : Tester :=
  Tester.init "m" "opts" "m" none none none none none 1 (some "[]")

/-- The example transcript as the JSON value the loader produces. -/
def transcriptHiJson : Json :=
  Json.arr [Json.obj [("role", Json.str "user"), ("content", Json.str "hi")],
            Json.obj [("role", Json.str "assistant"), ("content", Json.str "hello")]]

/-! ### Helper lemmas -/

/-- Two-at-a-time induction on lists, matching the pairing loop. -/
def twoStepRec {α : Type} {motive : List α → Prop}
    (h0 : motive []) (h1 : ∀ x, motive [x])
    (h2 : ∀ x y rest, motive rest → motive (x :: y :: rest)) : ∀ l, motive l
  | [] => h0
  | [x] => h1 x
  | x :: y :: rest => h2 x y rest (twoStepRec h0 h1 h2 rest)

theorem countUnload_nil : countUnload [] = 0 := rfl

theorem countUnload_append (a b : List Event) :
    countUnload (a ++ b) = countUnload a + countUnload b := by
  simp [countUnload, List.filter_append]

theorem countUnload_chat_cons (m : String) (ms : List Message) (o : String) (evs : List Event) :
    countUnload (Event.chat m ms o :: evs) = countUnload evs := by
  simp [countUnload]

theorem countUnload_unload_cons (m : String) (evs : List Event) :
    countUnload (Event.unload m :: evs) = countUnload evs + 1 := by
  simp [countUnload]

/-- Every event the pairing loop emits is a chat call to the judge
model, on the two-message judge conversation, with the general
inference options. -/
theorem judge_loop_events (t : Tester) (env : Env) :
    ∀ (messages : List Message), ∀ e ∈ (t.judge_loop env messages).1,
    ∃ jp, e = Event.chat t.judge_model (t.judgeMessages jp) t.ollama_options := by
  intro messages
  induction messages using twoStepRec with
  | h0 => simp [Tester.judge_loop]
  | h1 x => simp [Tester.judge_loop]
  | h2 p a rest ih =>
    intro e he
    rw [Tester.judge_loop] at he
    cases hr : t.renderJudgePrompt p.content a.content with
    | error err => rw [hr] at he; simp at he
    | ok jp =>
      rw [hr] at he
      simp only [List.mem_cons] at he
      rcases he with he | he
      · exact ⟨jp, he⟩
      · exact ih e he

theorem countUnload_judge_loop (t : Tester) (env : Env) :
    ∀ (messages : List Message), countUnload (t.judge_loop env messages).1 = 0 := by
  intro messages
  induction messages using twoStepRec with
  | h0 => rfl
  | h1 x => rfl
  | h2 p a rest ih =>
    rw [Tester.judge_loop]
    cases hr : t.renderJudgePrompt p.content a.content with
    | error err => rfl
    | ok jp => simpa [countUnload_chat_cons] using ih

theorem countUnload_evaluate_turns (t : Tester) (env : Env) (messages : List Message) :
    countUnload (t.evaluate_turns env messages).1 = 0 :=
  countUnload_judge_loop t env _

theorem countUnload_drive_turns (t : Tester) (env : Env) (question_id : Nat)
    (has_images : Bool) :
    ∀ (prompts : List String) (messages : List Message),
    countUnload (t.drive_turns env question_id has_images messages prompts).1 = 0 := by
  intro prompts
  induction prompts with
  | nil => intro messages; rfl
  | cons p rest ih =>
    intro messages
    rw [Tester.drive_turns]
    simpa [countUnload_chat_cons] using ih _

theorem countUnload_run_turns (t : Tester) (env : Env) (question_id : Nat) :
    countUnload (t.run_turns env question_id).1 = 0 := by
  rw [Tester.run_turns]
  exact countUnload_drive_turns t env question_id _ _ _

/-- With a scanned template, the rendering inside the loop reduces to
segment substitution. -/
theorem renderJudgePrompt_eq (t : Tester) (segs : List Seg)
    (hseg : parseTemplate t.judge_prompt = .ok segs) (q a : String) :
    t.renderJudgePrompt q a
      = .ok (renderSegs q a (pyStrTuple t.ollama_judge_options) segs) := by
  simp [Tester.renderJudgePrompt, str_format, hseg, Except.map]

/-- The pairing loop on an even-length list: one judge response per
pair, in order, each obtained by calling the judge model on the
two-message conversation rendered from that pair. -/
theorem judge_loop_pairs (t : Tester) (env : Env) (segs : List Seg)
    (hseg : parseTemplate t.judge_prompt = .ok segs) :
    ∀ (n : Nat) (messages : List Message), messages.length = 2 * n →
    ∃ js, (t.judge_loop env messages).2 = .ok js ∧ js.length = n ∧
      ∀ i p a, messages[2 * i]? = some p → messages[2 * i + 1]? = some a →
        js[i]? = some (env.chat t.judge_model
          (t.judgeMessages
            (renderSegs p.content a.content (pyStrTuple t.ollama_judge_options) segs))
          t.ollama_options) := by
  intro n
  induction n with
  | zero =>
    intro messages h
    have : messages = [] := List.eq_nil_of_length_eq_zero (by omega)
    subst this
    exact ⟨[], rfl, rfl, by intro i p a hp; simp at hp⟩
  | succ n ih =>
    intro messages h
    match messages with
    | p :: a :: rest =>
      have hrest : rest.length = 2 * n := by
        simp only [List.length_cons] at h; omega
      obtain ⟨js, hjs, hlen, hidx⟩ := ih rest hrest
      have hr := renderJudgePrompt_eq t segs hseg p.content a.content
      refine ⟨env.chat t.judge_model
          (t.judgeMessages
            (renderSegs p.content a.content (pyStrTuple t.ollama_judge_options) segs))
          t.ollama_options :: js, ?_, by simp [hlen], ?_⟩
      · rw [Tester.judge_loop, hr]
        simp [hjs, Except.map]
      · intro i q b hq hb
        cases i with
        | zero =>
          simp only [Nat.mul_zero] at hq hb
          simp only [List.getElem?_cons_zero] at hq
          simp only [List.getElem?_cons_succ, List.getElem?_cons_zero] at hb
          cases hq; cases hb
          simp
        | succ i =>
          have e1 : 2 * (i + 1) = 2 * i + 1 + 1 := by omega
          rw [e1] at hq hb
          simp only [List.getElem?_cons_succ] at hq hb
          simp only [List.getElem?_cons_succ]
          exact hidx i q b hq hb

/-- The pairing loop on an odd-length list fails with the `IndexError`
of popping an answer from the exhausted working copy (provided the
template scans, so that no render failure preempts it). -/
theorem judge_loop_odd (t : Tester) (env : Env) (segs : List Seg)
    (hseg : parseTemplate t.judge_prompt = .ok segs) :
    ∀ (messages : List Message), messages.length % 2 = 1 →
    ∃ evs, t.judge_loop env messages
      = (evs, .error (.indexError "pop from empty list")) := by
  intro messages
  induction messages using twoStepRec with
  | h0 => intro h; simp at h
  | h1 x => intro _; exact ⟨[], rfl⟩
  | h2 p a rest ih =>
    intro h
    have hrest : rest.length % 2 = 1 := by
      simp only [List.length_cons] at h; omega
    obtain ⟨evs, hevs⟩ := ih hrest
    have hr := renderJudgePrompt_eq t segs hseg p.content a.content
    refine ⟨Event.chat t.judge_model
        (t.judgeMessages
          (renderSegs p.content a.content (pyStrTuple t.ollama_judge_options) segs))
        t.ollama_options :: evs, ?_⟩
    rw [Tester.judge_loop, hr, hevs]
    rfl

/-- Shape of the judgement phase: its trace is the pre-trace followed
by the evaluation trace, and a successful result carries exactly the
transcript it was given. -/
theorem run_judge_phase_props (t : Tester) (env : Env) (pre : List Event)
    (msgs : List Message) :
    (t.run_judge_phase env pre msgs).1 = pre ++ (t.evaluate_turns env msgs).1
    ∧ ∀ r, (t.run_judge_phase env pre msgs).2 = .ok r → r.messages = msgs := by
  refine ⟨rfl, ?_⟩
  intro r hr
  simp only [Tester.run_judge_phase] at hr
  cases h2 : (t.evaluate_turns env msgs).2 with
  | error e => rw [h2] at hr; simp at hr
  | ok js =>
    rw [h2] at hr
    simp only at hr
    cases h3 : judgements_content js with
    | error e => rw [h3] at hr; simp at hr
    | ok cs =>
      rw [h3] at hr
      simp only [Except.ok.injEq] at hr
      rw [← hr]

/-! ### Claims -/

/-- C1: the claim says a `Tester` configured without a transcript
source obtains the transcript via `run_turns` and does not fail. The
code contradicts it: evaluating the `load_messages` property calls
`json.load(None)`, raising `AttributeError` (only `JSONDecodeError` is
caught), so `run` aborts before any client call and `run_turns` is
unreachable. -/
theorem c1_run_without_source_raises (t : Tester) (env : Env) (question_id : Nat)
    (h : t.load_messages_file = none) :
    t.run env question_id
      = ([], .error (.attributeError "NoneType object has no attribute read")) := by
  simp [Tester.run, Tester.load_messages, h]

/-- C1 witness: the failure at a concrete unconfigured tester. -/
theorem c1_witness :
    tLive.run envA 0
      = ([], .error (.attributeError "NoneType object has no attribute read")) :=
  c1_run_without_source_raises tLive envA 0 rfl

/-- C3: a leading system message is discarded before pairing: the
judge pipeline on `m :: rest` with `m.role = "system"` is exactly the
pairing loop on `rest`, so the system message contributes to no
rendered judge prompt and pairing runs over the remaining messages
only (the embedding is pure, so the input transcript is never
mutated). -/
theorem c3_system_message_discarded (t : Tester) (env : Env) (m : Message)
    (rest : List Message) (h : m.role = "system") :
    t.evaluate_turns env (m :: rest) = t.judge_loop env rest := by
  simp [Tester.evaluate_turns, stripLeadingSystem, h]

/-- C3 witness: concrete system message and transcript. -/
theorem c3_witness :
    tLoaded.evaluate_turns envA ({ role := "system", content := "S" } :: transcriptHi)
      = tLoaded.judge_loop envA transcriptHi :=
  c3_system_message_discarded tLoaded envA { role := "system", content := "S" }
    transcriptHi rfl

/-- C5: every judge invocation of `evaluate_turns` goes to the judge
model with exactly the two-message conversation (system message
holding the judge system prompt, user message holding the rendered
judge prompt) and the general inference options `ollama_options` — the
judge-specific option bag is never the options argument of the call. -/
theorem c5_judge_call_shape (t : Tester) (env : Env) (messages : List Message)
    (e : Event) (h : e ∈ (t.evaluate_turns env messages).1) :
    ∃ jp, e = Event.chat t.judge_model
      [{ role := "system", content := t.judge_system_prompt },
       { role := "user", content := jp }] t.ollama_options := by
  obtain ⟨jp, hjp⟩ := judge_loop_events t env _ e h
  exact ⟨jp, by simpa [Tester.judgeMessages] using hjp⟩

/-- C5 witness: the one judge call of a concrete evaluation. -/
theorem c5_witness :
    ∃ jp, Event.chat "judge"
        [{ role := "system", content := "JSP" }, { role := "user", content := "q/r" }]
        "opts"
      = Event.chat tSmall.judge_model
          [{ role := "system", content := tSmall.judge_system_prompt },
           { role := "user", content := jp }] tSmall.ollama_options :=
  c5_judge_call_shape tSmall envA
    [{ role := "user", content := "q" }, { role := "assistant", content := "r" }]
    (Event.chat "judge"
      [{ role := "system", content := "JSP" }, { role := "user", content := "q/r" }]
      "opts")
    (List.Mem.head _)

/-- C6: on a transcript whose length after removing a leading system
message is odd, the pairing loop pops a prompt from a singleton
working copy and then pops an answer from the empty one, so
`evaluate_turns` ends in the unhandled `IndexError` (given a template
that scans, so no render failure preempts the loop). -/
theorem c6_odd_transcript_index_error (t : Tester) (env : Env)
    (messages : List Message) (segs : List Seg)
    (hseg : parseTemplate t.judge_prompt = .ok segs)
    (hodd : (stripLeadingSystem messages).length % 2 = 1) :
    ∃ evs, t.evaluate_turns env messages
      = (evs, .error (.indexError "pop from empty list")) := by
  rw [Tester.evaluate_turns]
  exact judge_loop_odd t env segs hseg _ hodd

/-- C6 witness: a single-message transcript. -/
theorem c6_witness :
    ∃ evs, tSmall.evaluate_turns envA [{ role := "user", content := "q" }]
      = (evs, .error (.indexError "pop from empty list")) :=
  c6_odd_transcript_index_error tSmall envA [{ role := "user", content := "q" }]
    [Seg.question, Seg.lit '/', Seg.answer] rfl rfl

/-- C9: `check_config` raises `ConfigurationError` whenever the judge
prompt template lacks the question marker or the answer marker (it
takes no environment, so no model call is involved), and returns
without error when both markers are present and any configured
transcript source loads to a non-empty array. -/
theorem c9_check_config_markers (t : Tester) :
    ((strContains t.judge_prompt "\x7bquestion\x7d" = false ∨
      strContains t.judge_prompt "\x7banswer\x7d" = false) →
      ∃ msg, t.check_config = .error (.configurationError msg))
    ∧ (strContains t.judge_prompt "\x7bquestion\x7d" = true →
       strContains t.judge_prompt "\x7banswer\x7d" = true →
       (t.load_messages_file = none ∨
        ∃ l, t.load_messages = .ok (Json.arr l) ∧ l ≠ []) →
       t.check_config = .ok ()) := by
  constructor
  · intro h
    by_cases hq : strContains t.judge_prompt "\x7bquestion\x7d" = false
    · exact ⟨"The judge prompt must contains \x7bquestion\x7d",
        by simp [Tester.check_config, hq]⟩
    · have ha : strContains t.judge_prompt "\x7banswer\x7d" = false := h.resolve_left hq
      rw [Bool.not_eq_false] at hq
      exact ⟨"The judge prompt must contains \x7banswer\x7d",
        by simp [Tester.check_config, hq, ha]⟩
  · intro hq ha hsrc
    rcases hsrc with hnone | ⟨l, hl, hne⟩
    · simp [Tester.check_config, hq, ha, hnone]
    · cases hfile : t.load_messages_file with
      | none => rw [Tester.load_messages, hfile] at hl; simp at hl
      | some c =>
        have hempty : l.isEmpty = false := by
          cases l with
          | nil => exact absurd rfl hne
          | cons x xs => rfl
        simp [Tester.check_config, hq, ha, hfile, hl, Json.truthy, hempty]

/-- C9 witness: a template missing the answer marker errors; the
default configuration with no transcript source passes. -/
theorem c9_witness :
    (∃ msg, tNoAnswer.check_config = .error (.configurationError msg))
    ∧ tLive.check_config = .ok () :=
  ⟨(c9_check_config_markers tNoAnswer).1 (Or.inr (by decide)),
   (c9_check_config_markers tLive).2 (by decide) (by decide) (Or.inl rfl)⟩

/-- C10: because of the trailing comma in
`self.ollama_judge_options = ollama_judge_options,`, every constructed
tester stores the one-element tuple wrapping the constructor argument,
and the `options` value handed to every judge-prompt rendering is the
display of that tuple, not the configured option bag itself. -/
theorem c10_options_stored_as_tuple (model oopts jm : String)
    (sp jsp jp ojo : Option String) (q : Option Nat) (mt : Nat) (lmf : Option String) :
    (Tester.init model oopts jm sp jsp jp ojo q mt lmf).ollama_judge_options = [ojo]
    ∧ ∀ question answer,
      (Tester.init model oopts jm sp jsp jp ojo q mt lmf).renderJudgePrompt question answer
        = str_format (Tester.init model oopts jm sp jsp jp ojo q mt lmf).judge_prompt
            question answer (pyStrTuple [ojo]) :=
  ⟨rfl, fun _ _ => rfl⟩

/-- C10 witness: with the template being exactly the options marker,
the rendered prompt is the tuple display of the stored value. -/
theorem c10_witness :
    (Tester.init "m" "o" "j" none none (some "\x7boptions\x7d") (some "OJ") none 1
        none).ollama_judge_options = [some "OJ"]
    ∧ (Tester.init "m" "o" "j" none none (some "\x7boptions\x7d") (some "OJ") none 1
        none).renderJudgePrompt "Q" "A" = .ok (pyStrTuple [some "OJ"]) :=
  ⟨(c10_options_stored_as_tuple "m" "o" "j" none none (some "\x7boptions\x7d")
      (some "OJ") none 1 none).1, rfl⟩

/-- C2: on a transcript with no leading system message and exactly
`2 * n` messages, the judge pipeline succeeds with exactly `n`
responses, and the `i`-th response is the judge call on the prompt
rendered from the pair `(messages[2i], messages[2i+1])`, in
conversational order. -/
theorem c2_one_judgement_per_pair (t : Tester) (env : Env) (messages : List Message)
    (n : Nat) (segs : List Seg)
    (hseg : parseTemplate t.judge_prompt = .ok segs)
    (hlen : messages.length = 2 * n)
    (hsys : ∀ m, messages.head? = some m → m.role ≠ "system") :
    ∃ js, (t.evaluate_turns env messages).2 = .ok js ∧ js.length = n ∧
      ∀ i p a, messages[2 * i]? = some p → messages[2 * i + 1]? = some a →
        js[i]? = some (env.chat t.judge_model
          (t.judgeMessages
            (renderSegs p.content a.content (pyStrTuple t.ollama_judge_options) segs))
          t.ollama_options) := by
  have hstrip : stripLeadingSystem messages = messages := by
    cases messages with
    | nil => rfl
    | cons m rest =>
      have hm := hsys m rfl
      simp [stripLeadingSystem, hm]
  have heval : t.evaluate_turns env messages = t.judge_loop env messages := by
    rw [Tester.evaluate_turns, hstrip]
  rw [heval]
  exact judge_loop_pairs t env segs hseg n messages hlen

/-- C2 witness: a one-pair transcript yields exactly one judgement. -/
theorem c2_witness :
    ∃ js, (tSmall.evaluate_turns envA transcriptHi).2 = .ok js ∧ js.length = 1 := by
  obtain ⟨js, h1, h2, _⟩ :=
    c2_one_judgement_per_pair tSmall envA transcriptHi 1
      [Seg.question, Seg.lit '/', Seg.answer] rfl rfl
      (by intro m hm; cases hm; decide)
  exact ⟨js, h1, h2⟩

/-- C4: when the loaded transcripts document is a non-empty array and
index `i` is valid, `run i` makes exactly the judge pipeline's calls
(no conversation driving, no unload — `run_turns` is never invoked)
and any returned `Result` carries the loaded transcript at position
`i` verbatim as its `messages`. -/
theorem c4_replayed_transcript_verbatim (t : Tester) (env : Env) (i : Nat)
    (l : List Json) (ji : Json) (tr : List Message)
    (hload : t.load_messages = .ok (Json.arr l))
    (hne : l ≠ [])
    (hi : l[i]? = some ji)
    (htr : jsonToTranscript ji = .ok tr) :
    (t.run env i).1 = (t.evaluate_turns env tr).1
    ∧ ∀ r, (t.run env i).2 = .ok r → r.messages = tr := by
  have htruthy : (Json.arr l).truthy = true := by
    cases l with
    | nil => exact absurd rfl hne
    | cons x xs => rfl
  have hrun : t.run env i = t.run_judge_phase env [] tr := by
    rw [Tester.run, hload]
    simp [htruthy, jsonIndex, hi, htr, Except.bind]
  rw [hrun]
  have h := run_judge_phase_props t env [] tr
  simpa using h

/-- C4 witness: the spec's example document at index 0. -/
theorem c4_witness :
    (tLoaded.run envA 0).1 = (tLoaded.evaluate_turns envA transcriptHi).1
    ∧ (tLoaded.run envA 0).2
        = .ok { messages := transcriptHi,
                judgements := [Json.obj [("evaluation", Json.str "ok"),
                  ("total_rating", Json.str "70"), ("feedback", Json.str "none")]] } :=
  ⟨(c4_replayed_transcript_verbatim tLoaded envA 0 [transcriptHiJson] transcriptHiJson
      transcriptHi rfl (by simp [transcriptHiJson]) rfl rfl).1, rfl⟩

/-- C7 counterexample: the claim says judge content that is not a JSON
object with keys `evaluation`, `total_rating`, `feedback` fails
parsing so that no `Result` is returned. But `_parse_judgement` is
plain `json.loads` with no key validation: with every judge response
being the empty object, `run` returns a full `Result` whose judgement
is the empty object, which has none of the three keys. -/
theorem c7_counterexample :
    (tLoaded.run envB 0).2
      = .ok { messages := transcriptHi, judgements := [Json.obj []] }
    ∧ lookupMember [] "evaluation" = none
    ∧ lookupMember [] "total_rating" = none
    ∧ lookupMember [] "feedback" = none :=
  ⟨rfl, rfl, rfl, rfl⟩

/-- C7 (amended): `run` parses each judge response's content with
`json.loads`: the example rating document parses to a judgement whose
`total_rating` is textually `"70"`, and content that is not valid JSON
(such as `"not json"`) fails parsing, raising immediately so that no
`Result` is returned for that question; key presence is not
validated. -/
theorem c7_parse_judgement (s : String) (e : String)
    (h : json_loads s = .error e) :
    parse_judgement s = .error (.jsonDecodeError e)
    ∧ parse_judgement ratingContent
        = .ok (Json.obj [("evaluation", Json.str "ok"),
            ("total_rating", Json.str "70"), ("feedback", Json.str "none")])
    ∧ json_loads "not json" = .error "Expecting value"
    ∧ (tLoaded.run envC 0).2 = .error (.jsonDecodeError "Expecting value") := by
  refine ⟨?_, rfl, rfl, rfl⟩
  simp [parse_judgement, h]

/-- C7 witness: the amended behaviour at the concrete non-JSON
content. -/
theorem c7_witness :
    parse_judgement "not json" = .error (.jsonDecodeError "Expecting value") :=
  (c7_parse_judgement "not json" "Expecting value" rfl).1

/-- C8: with the transcript source evaluating successfully, the unload
signal is issued exactly once — placed after the driven conversation
and before any judging call — precisely when no transcript was loaded
(the loaded value is falsy) and the subject model equals the judge
model; with a loaded transcript or distinct models, no unload is ever
issued. -/
theorem c8_unload_iff (t : Tester) (env : Env) (qid : Nat) (lm : Json)
    (hload : t.load_messages = .ok lm) :
    ((lm.truthy = false ∧ t.model = t.judge_model) →
      (t.run env qid).1
        = (t.run_turns env qid).1
          ++ Event.unload t.model :: (t.evaluate_turns env (t.run_turns env qid).2).1
      ∧ countUnload (t.run env qid).1 = 1)
    ∧ ((lm.truthy = true ∨ t.model ≠ t.judge_model) →
      countUnload (t.run env qid).1 = 0) := by
  constructor
  · rintro ⟨hf, heq⟩
    have hrun : t.run env qid
        = t.run_judge_phase env
            ((t.run_turns env qid).1 ++ [Event.unload t.model])
            (t.run_turns env qid).2 := by
      rw [Tester.run, hload]
      simp [hf, heq]
    constructor
    · rw [hrun]
      simp [Tester.run_judge_phase]
    · rw [hrun]
      simp [Tester.run_judge_phase, countUnload_append, countUnload_run_turns,
        countUnload_evaluate_turns, countUnload_unload_cons]
  · intro h
    by_cases htru : lm.truthy = true
    · rw [Tester.run, hload]
      simp only [htru, if_true]
      cases hd : (jsonIndex lm qid).bind jsonToTranscript with
      | error e => simp [hd, countUnload_nil]
      | ok msgs =>
        simp [hd, Tester.run_judge_phase, countUnload_append,
          countUnload_evaluate_turns]
    · have hne : t.model ≠ t.judge_model := h.resolve_left htru
      rw [Tester.run, hload]
      simp [htru, hne, Tester.run_judge_phase, countUnload_append,
        countUnload_run_turns, countUnload_evaluate_turns]

/-- C8 witness: empty loaded document and identical models — the
unload is issued exactly once, between driving and judging. -/
theorem c8_witness :
    (tEmptySame.run envA 0).1
      = (tEmptySame.run_turns envA 0).1
        ++ Event.unload tEmptySame.model
          :: (tEmptySame.evaluate_turns envA (tEmptySame.run_turns envA 0).2).1
    ∧ countUnload (tEmptySame.run envA 0).1 = 1 :=
  (c8_unload_iff tEmptySame envA 0 (Json.arr []) rfl).1 ⟨rfl, rfl⟩

end OllamaBenchmark
